import Mathlib

/-!
# Teleport transport core: fan-in listener, channel connection, Kubernetes CSR guard

A shallow embedding of

* `lib/utils/fanin.go`      (`FanInListener`),
* `lib/sshutils/chanconn.go` (`ChanConn`),
* `lib/auth/kube.go`        (`KubeCSR`, `AuthServer.ProcessKubeCSR`),

followed by theorems about the embedded definitions.

Conventions.  A Go `error` is an `Option Error` (`none` is `nil`).  A method with a
pointer receiver returns the receiver's new value next to its result.  A
`context.WithCancel` pair `(ctx, cancel)` is the boolean `cancelled`: `cancel()` sets it,
it is never cleared, and `ctx.Done()` is ready exactly when it is set.  A `select`
statement is the list of outcomes of its ready cases: the empty list is a goroutine that
blocks, several entries are the choices the Go runtime may take.
-/

namespace Teleport

/-! ## Errors -/

/-- Go error values built by the sources: `errors.New`, and the constructors of the
`trace` package. -/
inductive Error where
  /-- The value of `errors.New(msg)`, and any other error that is not a `trace` error. -/
  | plain (msg : String)
  /-- The value of `trace.BadParameter(msg)`. -/
  | badParameter (msg : String)
  /-- The value of `trace.ConnectionProblem(nil, msg)`. -/
  | connectionProblem (msg : String)
  /-- The aggregate error holding the given errors, in order. -/
  | aggregate (errs : List Error)
  /-- A non-`trace` error after `trace.Wrap` attached a stack trace to it. -/
  | traced (err : Error)

namespace trace

/-- Library function `trace.BadParameter` (no format verbs are used by the sources). -/
def BadParameter (msg : String) : Option Error := some (Error.badParameter msg)

/-- Library function `trace.ConnectionProblem` called with a `nil` cause. -/
def ConnectionProblem (msg : String) : Option Error := some (Error.connectionProblem msg)

/-- Modelled from the spec: `trace.NewAggregate` of the `trace` library, which is not among
the sources.  The `nil` entries are dropped; with no entry left the result is `nil`
("no error if all closes succeeded"), otherwise it is the aggregate of the remaining
errors in their order ("all failures are collected and reported together"). -/
def NewAggregate (errs : List (Option Error)) : Option Error :=
  match errs.filterMap id with
  | [] => none
  | e :: es => some (Error.aggregate (e :: es))

/-- Library function `trace.Wrap`: `nil` stays `nil`, an error of the `trace` package is
returned as it is, any other error gets a stack trace. -/
def Wrap : Option Error → Option Error
  | none => none
  | some (Error.plain msg) => some (Error.traced (Error.plain msg))
  | some e => some e

end trace

/-- Modelled from the spec: the constant `teleport.UseOfClosedNetworkConnection`, declared
outside the sources; the message of the "use of closed network connection" failure. -/
def UseOfClosedNetworkConnection : String := "use of closed network connection"

/-! ## `lib/utils/fanin.go` -/

namespace utils

/-- The type `NetAddr` of package `utils` (its declaration is outside the sources; the two
fields are the ones `Addr` fills in).  Every `net.Addr` is represented by its network and
its address string. -/
structure NetAddr where
  AddrNetwork : String
  Addr : String
deriving DecidableEq, Repr

/-- A `net.Conn` travelling through the listener, known by its identity. -/
structure Conn where
  id : Nat
deriving DecidableEq, Repr

/-- A `net.Listener` as the fan-in listener sees it: its address, the connections that
`Accept` on it would hand out, and its behaviour under `Close` (the result of each
successive call, and the number of calls made so far). -/
structure Listener where
  addr : NetAddr
  pending : List Conn
  closeResult : Nat → Option Error
  closeCalls : Nat

namespace Listener

/-- Method `Addr` of `net.Listener`. -/
def Addr (l : Listener) : NetAddr := l.addr

/-- Method `Close` of `net.Listener`: the outcome of this call, and the listener after
it. -/
def Close (l : Listener) : Option Error × Listener :=
  (l.closeResult l.closeCalls, { l with closeCalls := l.closeCalls + 1 })

end Listener

/-- The struct `FanInListener`.  `cancelled` stands for the pair `ctx`/`close`.
`faninC` is the channel: `none` is the `nil` channel, `some q` a channel whose waiting
connections are `q`, oldest first. -/
structure FanInListener where
  listeners : List Listener
  cancelled : Bool
  faninC : Option (List Conn)

/-- Function `NewFanInListener`: the context is fresh, `faninC` is not assigned (it is the
`nil` channel), and one `fanin` worker is started per listener (see `fanin`). -/
def NewFanInListener (listeners : List Listener) : FanInListener :=
  { listeners := listeners, cancelled := false, faninC := none }

/-- The result of `FanInListener.Close`: the returned error, the listener afterwards, and
the connections on which the cleanup loop called `Close`, in order. -/
structure CloseResult where
  err : Option Error
  state : FanInListener
  closedConns : List Conn

namespace FanInListener

/-- The loop `for _, l := range f.listeners { errors = append(errors, l.Close()) }`:
started with the errors collected so far, it yields all collected errors and the
listeners after their `Close`. -/
def closeListeners : List Listener → List (Option Error) → List (Option Error) × List Listener
  | [], errors => (errors, [])
  | l :: rest, errors =>
    let r := l.Close
    let out := closeListeners rest (errors ++ [r.1])
    (out.1, r.2 :: out.2)

/-- The loop labelled `cleanup` on a channel that is not `nil`, given the connections
waiting in it: while one can be received it is received and closed; the `default` case
leaves the loop.  Yields the connections still waiting and the connections closed. -/
def drain : List Conn → List Conn × List Conn
  | [] => ([], [])
  | conn :: rest =>
    let out := drain rest
    (out.1, conn :: out.2)

/-- The loop labelled `cleanup`: on the `nil` channel nothing can be received and the
`default` case leaves the loop at once; otherwise see `drain`.  Yields the channel
afterwards and the connections closed. -/
def cleanup : Option (List Conn) → Option (List Conn) × List Conn
  | none => (none, [])
  | some q => (some (drain q).1, (drain q).2)

/-- Method `Close`: cancel, close every listener collecting the results, run the cleanup
loop, return the aggregate of the collected results. -/
def Close (f : FanInListener) : CloseResult :=
  let closed := closeListeners f.listeners []
  let drained := cleanup f.faninC
  { err := trace.NewAggregate closed.1
    state := { listeners := closed.2, cancelled := true, faninC := drained.1 }
    closedConns := drained.2 }

/-- What one call of `Accept` returns: the connection and the error. -/
abbrev AcceptResult := Option Conn × Option Error

/-- Method `Accept`, a `select` over two cases: a connection received from `faninC` is
returned with a `nil` error; when the context is done the connection-problem error is
returned with no connection. -/
def Accept (f : FanInListener) : List (AcceptResult × FanInListener) :=
  (match f.faninC with
    | some (conn :: rest) => [((some conn, none), { f with faninC := some rest })]
    | _ => []) ++
  (if f.cancelled then
    [((none, trace.ConnectionProblem UseOfClosedNetworkConnection), f)]
  else [])

/-- All the ways in which `n` successive calls of `Accept` can go: the results in call
order and the listener afterwards.  A call that blocks ends no run. -/
def AcceptRuns : Nat → FanInListener → List (List AcceptResult × FanInListener)
  | 0, f => [([], f)]
  | n + 1, f =>
    (Accept f).flatMap fun first =>
      (AcceptRuns n first.2).map fun run => (first.1 :: run.1, run.2)

/-- Method `Done`: whether the channel `f.ctx.Done()` is closed. -/
def Done (f : FanInListener) : Bool := f.cancelled

/-- Method `Channel`. -/
def Channel (f : FanInListener) : Option (List Conn) := f.faninC

/-- Method `Addr`. -/
def Addr (f : FanInListener) : NetAddr :=
  if h : f.listeners.length ≠ 0 then
    (f.listeners.get ⟨0, Nat.pos_of_ne_zero h⟩).Addr
  else
    { AddrNetwork := "tcp", Addr := "127.0.0.1:0" }

/-- How a run of the worker `fanin` stands: it returned, it is blocked in its `select`, or
the run was cut off by the step bound. -/
inductive WorkerStatus where
  | returned
  | blocked
  | running
deriving DecidableEq, Repr

/-- One run of the worker: the fan-in listener and the worker's own listener afterwards,
the connections it called `Close` on, and how it stands. -/
structure WorkerRun where
  state : FanInListener
  listener : Listener
  closed : List Conn
  status : WorkerStatus

/-- The runs through a `select` without `default`: those of its ready cases, or the one
blocked run when no case is ready. -/
def selectRuns (ready : List WorkerRun) (blocked : WorkerRun) : List WorkerRun :=
  match ready with
  | [] => [blocked]
  | runs => runs

/-- Method `fanin`, the worker started for listener `l`, run for at most `fuel` rounds of
its loop.  Each round is a `select`: a connection received from `faninC` is closed, and
when the context is done the worker returns.  The source never uses `l`.  `closed` are
the connections closed so far. -/
def fanin : Nat → FanInListener → Listener → List Conn → List WorkerRun
  | 0, f, l, closed => [{ state := f, listener := l, closed := closed, status := .running }]
  | fuel + 1, f, l, closed =>
    let recv : List WorkerRun :=
      match f.faninC with
      | some (conn :: rest) => fanin fuel { f with faninC := some rest } l (closed ++ [conn])
      | _ => []
    let done : List WorkerRun :=
      if f.cancelled then
        [{ state := f, listener := l, closed := closed, status := .returned }]
      else []
    selectRuns (recv ++ done)
      { state := f, listener := l, closed := closed, status := .blocked }

end FanInListener

end utils

/-! ## `lib/sshutils/chanconn.go` -/

namespace sshutils

/-- The calls a `ChanConn` method makes, in the order they are made. -/
inductive Call where
  /-- The cancel function `t.cancel` was invoked. -/
  | cancel
  /-- Method `Close` of the embedded `ssh.Channel` was invoked. -/
  | channelClose
  /-- Method `SetReadDeadline` was entered with the given deadline. -/
  | SetReadDeadline (deadline : Int)
  /-- Method `SetWriteDeadline` was entered with the given deadline. -/
  | SetWriteDeadline (deadline : Int)
deriving DecidableEq, Repr

/-- An `ssh.Channel` as `ChanConn` uses it: its behaviour under `Close` (the result of
each successive call, and the number of calls made so far). -/
structure Channel where
  closeResult : Nat → Option Error
  closeCalls : Nat

namespace Channel

/-- Method `Close` of `ssh.Channel`: the outcome of this call, and the channel after
it. -/
def Close (ch : Channel) : Option Error × Channel :=
  (ch.closeResult ch.closeCalls, { ch with closeCalls := ch.closeCalls + 1 })

end Channel

/-- The struct `ChanConn`: the embedded channel, the two addresses, and `cancelled` for
the pair `ctx`/`cancel`. -/
structure ChanConn where
  Channel : Channel
  Laddr : utils.NetAddr
  Raddr : utils.NetAddr
  cancelled : Bool

/-- What a `ChanConn` method yields: the returned error, the adapter afterwards, and the
calls made on the way. -/
structure Outcome where
  err : Option Error
  state : ChanConn
  calls : List Call

/-- Function `NewChanConn`. -/
def NewChanConn (laddr raddr : utils.NetAddr) (ch : Channel) : ChanConn :=
  { Channel := ch, Laddr := laddr, Raddr := raddr, cancelled := false }

namespace ChanConn

/-- Method `Close`: `t.cancel()` and then `return t.Channel.Close()`. -/
def Close (t : ChanConn) : Outcome :=
  let t1 : ChanConn := { t with cancelled := true }
  let r := t1.Channel.Close
  { err := r.1
    state := { t1 with Channel := r.2 }
    calls := [Call.cancel, Call.channelClose] }

/-- Method `Done`: whether the channel `t.ctx.Done()` is closed. -/
def Done (t : ChanConn) : Bool := t.cancelled

/-- Method `LocalAddr`. -/
def LocalAddr (t : ChanConn) : utils.NetAddr := t.Laddr

/-- Method `RemoteAddr`. -/
def RemoteAddr (t : ChanConn) : utils.NetAddr := t.Raddr

/-- Method `SetReadDeadline`. -/
def SetReadDeadline (t : ChanConn) (deadline : Int) : Outcome :=
  { err := some (Error.plain "sshutils.chanconn: deadline not supported")
    state := t
    calls := [Call.SetReadDeadline deadline] }

/-- Method `SetWriteDeadline`. -/
def SetWriteDeadline (t : ChanConn) (deadline : Int) : Outcome :=
  { err := some (Error.plain "sshutils.chanconn: deadline not supported")
    state := t
    calls := [Call.SetWriteDeadline deadline] }

/-- Method `SetDeadline`: the error of `SetReadDeadline` is returned when there is one,
otherwise the result of `SetWriteDeadline` is. -/
def SetDeadline (t : ChanConn) (deadline : Int) : Outcome :=
  let r := t.SetReadDeadline deadline
  match r.err with
  | some err => { err := some err, state := r.state, calls := r.calls }
  | none =>
    let w := r.state.SetWriteDeadline deadline
    { err := w.err, state := w.state, calls := r.calls ++ w.calls }

/-- The adapter after `k` successive calls of `Close`. -/
def closeTimes : Nat → ChanConn → ChanConn
  | 0, t => t
  | k + 1, t => closeTimes k t.Close.state

end ChanConn

end sshutils

/-! ## `lib/auth/kube.go` -/

namespace auth

/-- The struct `KubeCSR`; the bytes of `CSR` are numbers below 256. -/
structure KubeCSR where
  Username : String
  ClusterName : String
  CSR : List Nat
deriving DecidableEq, Repr

/-- A certificate authority as returned by `GetCertAuthority`, known by its name. -/
structure CertAuthority where
  name : String
deriving DecidableEq, Repr

/-- The struct `KubeCSRResponse`.  The struct declares `Cert` and `CAS`; the last
statement of `ProcessKubeCSR` writes a field `CA` holding the host authority, kept here
as a third field. -/
structure KubeCSRResponse where
  Cert : List Nat
  CAS : List (List Nat)
  CA : Option CertAuthority
deriving DecidableEq, Repr

/-- The value of `authority.ProcessCSR`: the signed certificate and the authority
certificate. -/
structure KubeCert where
  Cert : List Nat
  CA : List Nat

/-- A user as returned by `GetUser`: the results of `GetRoles` and `GetTraits`. -/
structure User where
  roles : List String
  traits : List (String × List String)

/-- A role set as returned by `services.FetchRoles`, with the one method the source
calls. -/
structure RoleSet where
  names : List String
  AdjustSessionTTL : Nat → Nat

/-- The struct `certRequest` with the fields `ProcessKubeCSR` fills in. -/
structure certRequest where
  user : User
  roles : RoleSet
  ttl : Nat
  publicKeyParsed : List Nat
  overrideRoleTTL : Bool
  usage : List String

/-- The work `ProcessKubeCSR` can do besides checking its request, in the order done. -/
inductive Work where
  | Debugf (msg : String)
  | ProcessCSR
  | GetCertAuthority (domainName : String)
  | GetUser (username : String)
  | FetchRoles
  | ParseCertificateRequestPEM
  | generateUserCert
deriving DecidableEq, Repr

/-- The struct `AuthServer` and the packages `ProcessKubeCSR` calls into, none of them
among the sources: every collaborator is a function of its arguments, and the constants
`defaults.CertDuration` and `teleport.UsageKubeOnly` are fields. -/
structure AuthServer where
  clusterName : String
  kubeCACertPath : String
  ProcessCSR : List Nat → String → Except Error KubeCert
  GetCertAuthority : String → Bool → Except Error CertAuthority
  GetUser : String → Except Error User
  FetchRoles : List String → List (String × List String) → Except Error RoleSet
  ParseCertificateRequestPEM : List Nat → Except Error (List Nat)
  generateUserCert : certRequest → Except Error (List Nat)
  CertDuration : Nat
  UsageKubeOnly : String

namespace KubeCSR

/-- Method `CheckAndSetDefaults`: the returned error and the request afterwards. -/
def CheckAndSetDefaults (a : KubeCSR) : Option Error × KubeCSR :=
  if a.CSR.length = 0 then
    (trace.BadParameter "missing parameter \x27csr\x27", a)
  else
    (none, a)

end KubeCSR

/-- What `ProcessKubeCSR` yields: the response, the error, and the work done. -/
structure Processed where
  resp : Option KubeCSRResponse
  err : Option Error
  work : List Work

namespace AuthServer

/-- Method `ProcessKubeCSR`. -/
def ProcessKubeCSR (s : AuthServer) (req0 : KubeCSR) : Processed :=
  let checked := req0.CheckAndSetDefaults
  let req := checked.2
  match checked.1 with
  | some err => { resp := none, err := trace.Wrap (some err), work := [] }
  | none =>
    if req.ClusterName = s.clusterName then
      let w := [Work.Debugf "Generating certificate with local Kubernetes cluster.",
        Work.ProcessCSR]
      match s.ProcessCSR req.CSR s.kubeCACertPath with
      | .error err => { resp := none, err := trace.Wrap (some err), work := w }
      | .ok cert =>
        { resp := some { Cert := cert.Cert, CAS := [cert.CA], CA := none }
          err := none, work := w }
    else
      let w1 := [Work.Debugf "Generating certificate for remote Kubernetes cluster.",
        Work.GetCertAuthority req.ClusterName]
      match s.GetCertAuthority req.ClusterName false with
      | .error err => { resp := none, err := trace.Wrap (some err), work := w1 }
      | .ok hostCA =>
        let w2 := w1 ++ [Work.GetUser req.Username]
        match s.GetUser req.Username with
        | .error err => { resp := none, err := trace.Wrap (some err), work := w2 }
        | .ok user =>
          let w3 := w2 ++ [Work.FetchRoles]
          match s.FetchRoles user.roles user.traits with
          | .error err => { resp := none, err := trace.Wrap (some err), work := w3 }
          | .ok roles =>
            let ttl := roles.AdjustSessionTTL s.CertDuration
            let w4 := w3 ++ [Work.ParseCertificateRequestPEM]
            match s.ParseCertificateRequestPEM req.CSR with
            | .error err => { resp := none, err := trace.Wrap (some err), work := w4 }
            | .ok csr =>
              let w5 := w4 ++ [Work.generateUserCert]
              match s.generateUserCert
                { user := user, roles := roles, ttl := ttl, publicKeyParsed := csr
                  overrideRoleTTL := false, usage := [s.UsageKubeOnly] } with
              | .error err => { resp := none, err := trace.Wrap (some err), work := w5 }
              | .ok tls =>
                { resp := some { Cert := tls, CAS := [], CA := some hostCA }
                  err := none, work := w5 }

end AuthServer

end auth

/-! ## Sample values -/

namespace Samples

open utils

/-- A listener on port 3022 whose `Close` always succeeds, with one connection waiting to
be accepted. -/
def quietListener : Listener :=
  { addr := { AddrNetwork := "tcp", Addr := "10.0.0.1:3022" }
    pending := [{ id := 1 }]
    closeResult := fun _ => none
    closeCalls := 0 }

/-- A listener on port 3023 whose `Close` always fails. -/
def brokenListener : Listener :=
  { addr := { AddrNetwork := "tcp", Addr := "10.0.0.1:3023" }
    pending := []
    closeResult := fun _ => some (Error.plain "close failed")
    closeCalls := 0 }

/-- A fan-in listener over both sample listeners with two connections in its queue. -/
def busyFanIn : FanInListener :=
  { listeners := [quietListener, brokenListener]
    cancelled := false
    faninC := some [{ id := 7 }, { id := 8 }] }

/-- A fan-in listener over the quiet listener with one connection pushed into its
queue. -/
def pushedFanIn : FanInListener :=
  { listeners := [quietListener]
    cancelled := false
    faninC := some [{ id := 2 }] }

end Samples

/-! ## Theorems: fan-in listener -/

namespace utils

namespace FanInListener

theorem closeListeners_eq (ls : List Listener) (errors : List (Option Error)) :
    closeListeners ls errors =
      (errors ++ ls.map (fun l => l.Close.1), ls.map (fun l => l.Close.2)) := by
  induction ls generalizing errors with
  | nil => simp [closeListeners]
  | cons l rest ih => simp [closeListeners, ih]

theorem drain_eq (q : List Conn) : drain q = ([], q) := by
  induction q with
  | nil => rfl
  | cons c rest ih => simp [drain, ih]

theorem cleanup_list (q : List Conn) : cleanup (some q) = (some [], q) := by
  simp [cleanup, drain_eq]

theorem cleanup_fst (ch : Option (List Conn)) : (cleanup ch).1 = ch.map (fun _ => []) := by
  cases ch with
  | none => rfl
  | some q => simp [cleanup_list]

theorem cleanup_snd (ch : Option (List Conn)) : (cleanup ch).2 = ch.getD [] := by
  cases ch with
  | none => rfl
  | some q => simp [cleanup_list]

theorem Close_err (f : FanInListener) :
    (Close f).err = trace.NewAggregate (f.listeners.map (fun l => l.Close.1)) := by
  simp [Close, closeListeners_eq]

theorem Close_listeners (f : FanInListener) :
    (Close f).state.listeners = f.listeners.map (fun l => l.Close.2) := by
  simp [Close, closeListeners_eq]

theorem Close_cancelled (f : FanInListener) : (Close f).state.cancelled = true := rfl

theorem Close_faninC (f : FanInListener) :
    (Close f).state.faninC = f.faninC.map (fun _ => []) := by
  simp [Close, cleanup_fst]

/-- With the context done and nothing in the queue, `Accept` has one outcome: the
closed-connection error, and the listener is as before. -/
theorem Accept_of_drained (g : FanInListener) (hc : g.cancelled = true)
    (hq : g.faninC = none ∨ g.faninC = some []) :
    Accept g = [((none, some (Error.connectionProblem UseOfClosedNetworkConnection)), g)] := by
  rcases hq with hq | hq <;> simp [Accept, hc, hq, trace.ConnectionProblem]

theorem AcceptRuns_of_drained (n : Nat) (g : FanInListener) (hc : g.cancelled = true)
    (hq : g.faninC = none ∨ g.faninC = some []) :
    AcceptRuns n g =
      [(List.replicate n (none, some (Error.connectionProblem UseOfClosedNetworkConnection)),
        g)] := by
  induction n with
  | zero => rfl
  | succ n ih => simp [AcceptRuns, Accept_of_drained g hc hq, ih, List.replicate_succ]

theorem Close_drained (f : FanInListener) :
    (Close f).state.faninC = none ∨ (Close f).state.faninC = some [] := by
  rw [Close_faninC]
  cases f.faninC <;> simp

theorem NewAggregate_eq_none (errs : List (Option Error)) :
    trace.NewAggregate errs = none ↔ ∀ e ∈ errs, e = none := by
  unfold trace.NewAggregate
  constructor
  · intro h e he
    cases e with
    | none => rfl
    | some x =>
      have hx : x ∈ errs.filterMap id := List.mem_filterMap.mpr ⟨some x, he, rfl⟩
      cases hfm : errs.filterMap id with
      | nil => rw [hfm] at hx; cases hx
      | cons a rest => rw [hfm] at h; cases h
  · intro h
    have hnil : errs.filterMap id = [] := by
      apply List.eq_nil_iff_forall_not_mem.mpr
      intro x hx
      obtain ⟨o, ho, hox⟩ := List.mem_filterMap.mp hx
      rw [h o ho] at hox
      cases hox
    rw [hnil]

theorem NewAggregate_eq_some (errs : List (Option Error)) (es : List Error)
    (h : trace.NewAggregate errs = some (Error.aggregate es)) : es = errs.filterMap id := by
  unfold trace.NewAggregate at h
  cases hfm : errs.filterMap id with
  | nil => rw [hfm] at h; cases h
  | cons a rest =>
    rw [hfm] at h
    injection h with h
    injection h with h
    exact h.symm

theorem NewAggregate_of_mem (errs : List (Option Error)) (e : Error) (he : some e ∈ errs) :
    trace.NewAggregate errs = some (Error.aggregate (errs.filterMap id)) := by
  have hx : e ∈ errs.filterMap id := List.mem_filterMap.mpr ⟨some e, he, rfl⟩
  unfold trace.NewAggregate
  cases hfm : errs.filterMap id with
  | nil => rw [hfm] at hx; cases hx
  | cons a rest => rfl

theorem mem_selectRuns (ready : List WorkerRun) (blocked r : WorkerRun)
    (h : r ∈ selectRuns ready blocked) : r ∈ ready ∨ r = blocked := by
  cases ready with
  | nil => exact Or.inr (by simpa [selectRuns] using h)
  | cons a t => exact Or.inl (by simpa [selectRuns] using h)

/-- The worker never puts a connection into the queue and never touches its listener:
in every run the listener is as it was, and the connections closed so far followed by those
waiting are the same sequence before and after. -/
theorem fanin_only_closes (fuel : Nat) (f : FanInListener) (l : Listener) (closed : List Conn)
    (r : WorkerRun) (hr : r ∈ fanin fuel f l closed) :
    r.listener = l ∧ r.state.listeners = f.listeners ∧
      r.closed ++ r.state.faninC.getD [] = closed ++ f.faninC.getD [] := by
  induction fuel generalizing f closed with
  | zero =>
    simp [fanin] at hr
    subst hr
    simp
  | succ n ih =>
    unfold fanin at hr
    rcases mem_selectRuns _ _ _ hr with h | h
    · rcases List.mem_append.mp h with h | h
      · rcases hq : f.faninC with _ | _ | ⟨conn, rest⟩ <;> simp only [hq] at h
        · cases h
        · cases h
        · have := ih _ _ h
          simpa [hq] using this
      · by_cases hc : f.cancelled = true <;> simp [hc] at h
        subst h
        simp
    · subst h
      simp

/-- Claim C1.  After `Close`, whatever the listeners and whatever was waiting in the queue
when `Close` was called, any number `n` of successive `Accept` calls can go in one way
only: each call returns no connection and the connection-problem error "use of closed
network connection", and none of them blocks or changes the listener. -/
theorem accept_after_close (f : FanInListener) (n : Nat) :
    AcceptRuns n (Close f).state =
      [(List.replicate n (none, some (Error.connectionProblem "use of closed network connection")),
        (Close f).state)] :=
  AcceptRuns_of_drained n (Close f).state (Close_cancelled f) (Close_drained f)

/-- Claim C2.  `Close` calls `Close` once on every listener of the list, whatever the
earlier ones returned; its result is the aggregate of the results of these calls: it is
`nil` exactly when every listener closed without error, and otherwise it is the aggregate
of all the failures, in listener order, and of nothing else. -/
theorem close_closes_all_and_aggregates (f : FanInListener) :
    (Close f).state.listeners = f.listeners.map (fun l => l.Close.2) ∧
    (∀ l ∈ (Close f).state.listeners, ∃ l0 ∈ f.listeners,
      l.closeCalls = l0.closeCalls + 1) ∧
    (Close f).err = trace.NewAggregate (f.listeners.map (fun l => l.Close.1)) ∧
    ((Close f).err = none ↔ ∀ l ∈ f.listeners, l.Close.1 = none) ∧
    (∀ l ∈ f.listeners, ∀ e, l.Close.1 = some e →
      (Close f).err =
        some (Error.aggregate (f.listeners.filterMap (fun l => l.Close.1))) ∧
      e ∈ f.listeners.filterMap (fun l => l.Close.1)) := by
  refine ⟨Close_listeners f, ?_, Close_err f, ?_, ?_⟩
  · intro l hl
    rw [Close_listeners] at hl
    obtain ⟨l0, hl0, rfl⟩ := List.mem_map.mp hl
    exact ⟨l0, hl0, rfl⟩
  · rw [Close_err, NewAggregate_eq_none]
    simp
  · intro l hl e he
    have hmem : some e ∈ f.listeners.map (fun l => l.Close.1) :=
      List.mem_map.mpr ⟨l, hl, he⟩
    refine ⟨?_, List.mem_filterMap.mpr ⟨l, hl, he⟩⟩
    rw [Close_err, NewAggregate_of_mem _ e hmem, List.filterMap_map]
    rfl

/-- Claim C5.  When every listener returns the same outcome each time it is closed, a
second `Close` returns the same aggregated result as the first (no error both times
when every close succeeds), and the cancellation signal is fired after the first call and
still fired after the second.  `Close` is a total function: no call fails abnormally. -/
theorem close_twice_same_result (f : FanInListener)
    (h : ∀ l ∈ f.listeners, ∀ i j, l.closeResult i = l.closeResult j) :
    (Close (Close f).state).err = (Close f).err ∧
    ((∀ l ∈ f.listeners, l.Close.1 = none) →
      (Close f).err = none ∧ (Close (Close f).state).err = none) ∧
    (Close f).state.Done = true ∧ (Close (Close f).state).state.Done = true := by
  have hsame : (Close (Close f).state).err = (Close f).err := by
    rw [Close_err, Close_err, Close_listeners, List.map_map]
    congr 1
    apply List.map_congr_left
    intro l hl
    exact h l hl _ _
  refine ⟨hsame, ?_, rfl, rfl⟩
  intro hall
  have h1 : (Close f).err = none := by
    rw [Close_err, NewAggregate_eq_none]
    simpa using hall
  exact ⟨h1, hsame.trans h1⟩

/-- Over the two sample listeners, one of which always fails to close, both `Close` calls
return the same aggregate and leave the signal fired. -/
theorem close_twice_same_result_witness :
    (∀ l ∈ Samples.busyFanIn.listeners, ∀ i j, l.closeResult i = l.closeResult j) ∧
    (Close (Close Samples.busyFanIn).state).err = (Close Samples.busyFanIn).err ∧
    (Close (Close Samples.busyFanIn).state).err =
      some (Error.aggregate [Error.plain "close failed"]) ∧
    (Close (Close Samples.busyFanIn).state).state.Done = true :=
  have h : ∀ l ∈ Samples.busyFanIn.listeners, ∀ i j, l.closeResult i = l.closeResult j := by
    intro l hl i j
    simp only [Samples.busyFanIn, List.mem_cons, List.mem_singleton, List.not_mem_nil,
      or_false] at hl
    rcases hl with rfl | rfl <;> rfl
  ⟨h, (close_twice_same_result Samples.busyFanIn h).1, rfl,
    (close_twice_same_result Samples.busyFanIn h).2.2.2⟩

/-- Claim C9.  `Addr` returns the address of the first listener when there is one, and
otherwise the placeholder with network "tcp" and address "127.0.0.1:0". -/
theorem addr_first_or_placeholder (f : FanInListener) :
    (∀ l rest, f.listeners = l :: rest → Addr f = l.Addr) ∧
    (f.listeners = [] → Addr f = { AddrNetwork := "tcp", Addr := "127.0.0.1:0" }) := by
  constructor
  · intro l rest h
    simp [Addr, h]
  · intro h
    simp [Addr, h]

/-- Claim C4, evaluated on the code.  The worker started for a listener with a connection
waiting to be accepted never accepts it: on the listener built by `NewFanInListener` the
worker blocks with that connection still waiting on its listener, and `Accept` blocks as
well; when a connection has been pushed into the queue the worker takes it out and closes
it, so that `Accept` cannot deliver it. -/
theorem fanin_worker_closes_instead_of_forwarding :
    (fanin 4 (NewFanInListener [Samples.quietListener]) Samples.quietListener []).map
        (fun r => (r.status, r.closed, r.listener.pending, r.state.faninC)) =
      [(WorkerStatus.blocked, [], [{ id := 1 }], none)] ∧
    Accept (NewFanInListener [Samples.quietListener]) = [] ∧
    (fanin 4 Samples.pushedFanIn Samples.quietListener []).map
        (fun r => (r.status, r.closed, r.listener.pending, r.state.faninC)) =
      [(WorkerStatus.blocked, [{ id := 2 }], [{ id := 1 }], some [])] ∧
    (fanin 4 Samples.pushedFanIn Samples.quietListener []).flatMap
        (fun r => (Accept r.state).map (fun a => a.1)) = [] := by
  refine ⟨rfl, rfl, rfl, rfl⟩

end FanInListener

end utils

/-! ## Theorems: channel connection -/

namespace sshutils

namespace ChanConn

theorem closeTimes_succ_cancelled (k : Nat) (t : ChanConn) :
    (closeTimes (k + 1) t).cancelled = true := by
  induction k generalizing t with
  | zero => rfl
  | succ k ih => exact ih t.Close.state

/-- Claim C3.  For every adapter and every deadline, each of `SetDeadline`,
`SetReadDeadline` and `SetWriteDeadline` returns the error "sshutils.chanconn: deadline
not supported", never `nil`, and leaves the adapter (channel, both addresses, cancellation
state) as it was. -/
theorem deadlines_not_supported (t : ChanConn) (deadline : Int) :
    (t.SetDeadline deadline).err =
      some (Error.plain "sshutils.chanconn: deadline not supported") ∧
    (t.SetReadDeadline deadline).err =
      some (Error.plain "sshutils.chanconn: deadline not supported") ∧
    (t.SetWriteDeadline deadline).err =
      some (Error.plain "sshutils.chanconn: deadline not supported") ∧
    (t.SetDeadline deadline).state = t ∧
    (t.SetReadDeadline deadline).state = t ∧
    (t.SetWriteDeadline deadline).state = t :=
  ⟨rfl, rfl, rfl, rfl, rfl, rfl⟩

/-- Claim C6.  `SetDeadline` returns exactly the error of `SetReadDeadline` for the same
deadline, and the only call it makes is that one: `SetWriteDeadline` is not reached, with
this or any other deadline. -/
theorem set_deadline_fails_via_read (t : ChanConn) (deadline : Int) :
    (t.SetDeadline deadline).err = (t.SetReadDeadline deadline).err ∧
    (t.SetDeadline deadline).calls = [Call.SetReadDeadline deadline] ∧
    ∀ d, Call.SetWriteDeadline d ∉ (t.SetDeadline deadline).calls := by
  refine ⟨rfl, rfl, ?_⟩
  intro d hd
  have hcalls : (t.SetDeadline deadline).calls = [Call.SetReadDeadline deadline] := rfl
  rw [hcalls] at hd
  simp at hd

/-- Claim C7.  `Close` first invokes the cancel function and then closes the sub-channel,
once, and returns exactly what the sub-channel's `Close` returned; a new adapter's signal
is not fired, and after `k + 1` calls of `Close`, for every `k`, `Done` reports it
fired. -/
theorem close_cancels_then_closes_channel (t : ChanConn) (k : Nat) :
    t.Close.calls = [Call.cancel, Call.channelClose] ∧
    t.Close.err = t.Channel.closeResult t.Channel.closeCalls ∧
    t.Close.state.Channel.closeCalls = t.Channel.closeCalls + 1 ∧
    t.Close.state.Done = true ∧
    (closeTimes (k + 1) t).Done = true ∧
    (∀ laddr raddr ch, (NewChanConn laddr raddr ch).Done = false) :=
  ⟨rfl, rfl, rfl, rfl, closeTimes_succ_cancelled k t, fun _ _ _ => rfl⟩

end ChanConn

end sshutils

/-! ## Theorems: Kubernetes signing requests -/

namespace auth

/-- Claim C10.  `CheckAndSetDefaults` returns the bad-parameter error exactly when the CSR
has length 0, returns `nil` otherwise, and leaves the request as it was; on a request
with an empty CSR `ProcessKubeCSR` returns no response and that bad-parameter error, and
has done no other work: no signing, no authority, user or role lookup. -/
theorem empty_csr_rejected_first (s : AuthServer) (a : KubeCSR) (username cluster : String) :
    (a.CheckAndSetDefaults.1 = some (Error.badParameter "missing parameter \x27csr\x27") ↔
      a.CSR.length = 0) ∧
    (a.CheckAndSetDefaults.1 = none ↔ a.CSR.length ≠ 0) ∧
    a.CheckAndSetDefaults.2 = a ∧
    (s.ProcessKubeCSR { Username := username, ClusterName := cluster, CSR := [] }).resp
      = none ∧
    (s.ProcessKubeCSR { Username := username, ClusterName := cluster, CSR := [] }).err
      = some (Error.badParameter "missing parameter \x27csr\x27") ∧
    (s.ProcessKubeCSR { Username := username, ClusterName := cluster, CSR := [] }).work
      = [] := by
  refine ⟨?_, ?_, ?_, rfl, rfl, rfl⟩
  · by_cases h : a.CSR.length = 0 <;>
      simp [KubeCSR.CheckAndSetDefaults, h, trace.BadParameter]
  · by_cases h : a.CSR.length = 0 <;>
      simp [KubeCSR.CheckAndSetDefaults, h, trace.BadParameter]
  · by_cases h : a.CSR.length = 0 <;> simp [KubeCSR.CheckAndSetDefaults, h]

end auth

end Teleport
